import Mathlib

/-!
Shallow embedding of `municipal_code_assistant.py` and the display logic of
`tui_interface.py` from the El-Paso-AI repository, together with proofs about
the retrieval pipeline (`batch_search`, `smart_search_code`, `ask_question`,
`_format_retrieved_docs`, `_quick_needs_check`, `_extract_quick_search_terms`).

External effects (the Chroma vector store, the self-query retriever, the LLM
summarization chain, and Python's string hash) are modelled as an explicit
environment `Env` of oracle functions; a `none` / `.error` result models the
corresponding Python call raising an exception.  Python strings are character
sequences, so the Python string operations used by the code (`lower`, `split`,
slicing, `len`, `startswith`, `in`) are embedded as functions on the character
data of a Lean `String`.
-/

namespace ElPasoAI

/-- Python `s.lower()` (character-wise). -/
def lowerStr (s : String) : String :=
  String.mk (s.data.map Char.toLower)

/-- Python slicing `s[:n]` (by characters). -/
def takeChars (s : String) (n : Nat) : String :=
  String.mk (s.data.take n)

/-- Python `len(s)` (number of characters). -/
def charLen (s : String) : Nat :=
  s.data.length

/-- Python `s.startswith(pre)`. -/
def startsWithStr (s pre : String) : Bool :=
  decide (s.data.take pre.data.length = pre.data)

/-- Python's substring test `sub in s`. -/
def strHasSub (s sub : String) : Bool :=
  (List.range (s.data.length + 1)).any
    (fun i => decide ((s.data.drop i).take sub.data.length = sub.data))

/-- Python's `any(word in s for word in words)`. -/
def anyWordIn (words : List String) (s : String) : Bool :=
  words.any (fun w => strHasSub s w)

/-- Helper for `pyWords`: split on whitespace, dropping empty pieces. -/
def wordsAux : List Char → List Char → List String
  | [], acc => if acc.isEmpty then [] else [String.mk acc.reverse]
  | c :: cs, acc =>
    if c.isWhitespace then
      if acc.isEmpty then wordsAux cs []
      else String.mk acc.reverse :: wordsAux cs []
    else wordsAux cs (c :: acc)

/-- Python's `s.split()`: whitespace-separated words, empty pieces dropped. -/
def pyWords (s : String) : List String :=
  wordsAux s.data []

/-- Python's `set(s.split())`, as a duplicate-free list. -/
def wordSet (s : String) : List String :=
  (pyWords s).dedup

/-- A LangChain `Document`: `page_content` plus the `section` metadata entry
(`doc.metadata.get('section')`, which may be absent). -/
structure Doc where
  page_content : String
  sectionId : Option String
deriving Repr, DecidableEq

/-- The external world seen by the assistant: the vector store's
`similarity_search`, the self-query retriever's `invoke`, the summary chain's
`invoke` (taking the question and the formatted context and returning the
answer text), and Python's string `hash`.  `none` / `.error e` model the call
raising an exception. -/
structure Env where
  similarity_search : String → Nat → Option (List Doc)
  self_query_invoke : String → Option (List Doc)
  summarize : String → String → Except String String
  hashf : String → Int

/-- The mutable fields of `MunicipalCodeAssistant` that `ask_question` reads:
whether `self.vectorstore` is set (truthy) and the `use_self_query` flag.
`db_path` is kept for completeness. -/
structure MunicipalCodeAssistant where
  db_path : String
  vectorstore : Option Unit
  use_self_query : Bool
deriving Repr, DecidableEq

/-- `MunicipalCodeAssistant.__init__`: every AI component starts unset. -/
def MunicipalCodeAssistant.mkInit (db_path : String := "chroma_db") :
    MunicipalCodeAssistant :=
  { db_path := db_path, vectorstore := none, use_self_query := false }

/-- The result dictionary returned by `ask_question`. -/
structure AskResult where
  success : Bool
  error : Option String
  documents : List Doc
  answer : Option String
  iterations : Nat
  note : Option String := none
deriving Repr, DecidableEq

/-- The content key used by `batch_search`'s dedup:
`hash(doc.page_content[:100])`. -/
def contentKey (env : Env) (doc : Doc) : Int :=
  env.hashf (takeChars doc.page_content 100)

/-- The per-document body of `batch_search`'s inner loop: keep the document
unless its content key was already seen. -/
def batch_dedup_step (env : Env) (acc : List Doc × List Int) (doc : Doc) :
    List Doc × List Int :=
  let content_hash := contentKey env doc
  if content_hash ∈ acc.2 then acc
  else (acc.1 ++ [doc], acc.2 ++ [content_hash])

/-- The per-query body of `batch_search`'s outer loop: a query whose
`similarity_search` raises is skipped (`continue`). -/
def batch_query_step (env : Env) (k_per_query : Nat)
    (acc : List Doc × List Int) (query : String) : List Doc × List Int :=
  match env.similarity_search query k_per_query with
  | none => acc
  | some docs => docs.foldl (batch_dedup_step env) acc

/-- `batch_search(queries, k_per_query)`. -/
def batch_search (env : Env) (queries : List String) (k_per_query : Nat) :
    List Doc :=
  (queries.foldl (batch_query_step env k_per_query) ([], [])).1

/-- The `search_queries` list built at the top of `smart_search_code` before
the cap: the original question first, then keyword-triggered variants. -/
def search_queries_raw (question : String) : List String :=
  let question_lower := lowerStr question
  let qs := [question]
  let qs := if anyWordIn ["shit", "defecate", "urinate", "pee", "bathroom",
      "toilet", "public restroom"] question_lower then
      qs ++ ["public urination defecation prohibited",
        "indecent conduct public decency",
        "disorderly conduct public behavior",
        "public health sanitation violations",
        "nuisance public place bathroom"]
    else qs
  let qs := if anyWordIn ["fence", "wall", "height"] question_lower then
      qs ++ ["residential fence height 20.16.030",
        "fence screening wall residential"]
    else qs
  let qs := if anyWordIn ["animal", "tiger", "pet", "dog"] question_lower then
      qs ++ ["animal control dangerous animals", "exotic animal prohibition"]
    else qs
  let qs := if anyWordIn ["business", "commercial", "store"] question_lower then
      qs ++ ["business license commercial", "zoning commercial activity"]
    else qs
  qs

/-- The final `search_queries` list: capped at 6 variants
(`search_queries = search_queries[:6]`). -/
def search_queries (question : String) : List String :=
  (search_queries_raw question).take 6

/-- The `relevance_score` closure of `smart_search_code`, as a function of the
precomputed `question_words` set and the document. -/
def relevance_score (question_words : List String) (doc : Doc) : Nat :=
  let content_words := wordSet (lowerStr doc.page_content)
  let sec := doc.sectionId.getD ""
  let content_lower := lowerStr doc.page_content
  let word_match_score :=
    (question_words.filter (fun w => decide (w ∈ content_words))).length
  let section_bonus : Nat :=
    if startsWithStr sec "20.16" then 15
    else if startsWithStr sec "18." then 10
    else if startsWithStr sec "7." then 8
    else if startsWithStr sec "10." then 12
    else if startsWithStr sec "9." then 14
    else if startsWithStr sec "8." then 16
    else 0
  let quality_bonus : Nat :=
    (if anyWordIn ["prohibited", "unlawful", "shall not", "violation"]
        content_lower then 8 else 0) +
    (if anyWordIn ["public place", "indecent", "disorderly"]
        content_lower then 6 else 0) +
    (if anyWordIn ["urinate", "defecate", "excrete"]
        content_lower then 10 else 0) +
    (if anyWordIn ["permitted", "allowed", "shall", "required"]
        content_lower then 3 else 0)
  word_match_score + section_bonus + quality_bonus

/-- The ordering realised by Python's stable
`all_docs.sort(key=relevance_score, reverse=True)` on index-tagged documents:
strictly higher score first, ties kept in original (index) order. -/
def rankRel (score : Doc → Nat) (a b : Nat × Doc) : Prop :=
  score b.2 < score a.2 ∨ (score a.2 = score b.2 ∧ a.1 ≤ b.1)

instance (score : Doc → Nat) : DecidableRel (rankRel score) := fun a b => by
  unfold rankRel; exact inferInstance

instance (score : Doc → Nat) : IsTotal (Nat × Doc) (rankRel score) where
  total a b := by
    unfold rankRel
    rcases Nat.lt_trichotomy (score a.2) (score b.2) with h | h | h
    · exact Or.inr (Or.inl h)
    · rcases Nat.le_total a.1 b.1 with h' | h'
      · exact Or.inl (Or.inr ⟨h, h'⟩)
      · exact Or.inr (Or.inr ⟨h.symm, h'⟩)
    · exact Or.inl (Or.inl h)

instance (score : Doc → Nat) : IsTrans (Nat × Doc) (rankRel score) where
  trans a b c hab hbc := by
    unfold rankRel at *
    rcases hab with h1 | ⟨h1, h1'⟩
    · rcases hbc with h2 | ⟨h2, _⟩
      · exact Or.inl (h2.trans h1)
      · exact Or.inl (h2 ▸ h1)
    · rcases hbc with h2 | ⟨h2, h2'⟩
      · exact Or.inl (h1 ▸ h2)
      · exact Or.inr ⟨h1.trans h2, h1'.trans h2'⟩

/-- The sorting stage of `smart_search_code`: tag the batch-search results with
their original position and sort them stably by descending relevance score. -/
def ranked_docs (question : String) (all_docs : List Doc) : List (Nat × Doc) :=
  List.insertionSort (rankRel (relevance_score (wordSet (lowerStr question))))
    all_docs.enum

/-- The documents handed to `smart_search_code`'s sort: one `batch_search`
over the capped query variants with `k_per_query = max(2, k // len(queries))`. -/
def smart_search_pool (env : Env) (question : String) (k : Nat) : List Doc :=
  batch_search env (search_queries question)
    (max 2 (k / (search_queries question).length))

/-- `smart_search_code(question, k)`: variant generation, batch search, stable
descending sort by relevance, truncation to `k`. -/
def smart_search_code (env : Env) (question : String) (k : Nat := 10) :
    List Doc :=
  (((ranked_docs question (smart_search_pool env question k)).map Prod.snd).take k)

/-- The truncation applied to a document's content in
`_format_retrieved_docs`. -/
def truncate_content (content : String) : String :=
  if charLen content > 1000 then takeChars content 1000 ++ "..." else content

/-- The per-document body of `_format_retrieved_docs`'s loop: skip a document
whose section identifier was already collected.  The seen-sections set is
exactly the set of first components already collected. -/
def format_step (acc : List (String × String)) (doc : Doc) :
    List (String × String) :=
  let sec := doc.sectionId.getD "Unknown"
  if sec ∈ acc.map Prod.fst then acc
  else acc ++ [(sec, truncate_content doc.page_content)]

/-- The `(section, content)` pairs collected by `_format_retrieved_docs`:
top 8 documents, one entry per section identifier (`'Unknown'` when absent),
content truncated. -/
def format_entries (docs : List Doc) : List (String × String) :=
  (docs.take 8).foldl format_step []

/-- `_format_retrieved_docs(docs)`: the labelled entries joined by blank
lines. -/
def format_retrieved_docs (docs : List Doc) : String :=
  String.intercalate "\n\n"
    ((format_entries docs).map
      (fun p => "Section " ++ p.1 ++ ":\n" ++ p.2))

/-- `_quick_needs_check(answer)`: does the lowered answer contain one of the
four needs-more indicators? -/
def quick_needs_check (answer : String) : Bool :=
  anyWordIn ["would need to see", "need additional sections",
    "not provided in these sections", "additional information"]
    (lowerStr answer)

/-- A word character for the regex word boundary `\b`: `[A-Za-z0-9_]`. -/
def isWordChar (c : Char) : Bool :=
  c.isAlphanum || c == '_'

/-- Consume a maximal run of decimal digits. -/
def takeDigits : List Char → List Char × List Char
  | [] => ([], [])
  | c :: cs =>
    if c.isDigit then
      let (d, r) := takeDigits cs
      (c :: d, r)
    else ([], c :: cs)

/-- Greedily consume further `\.\d+` groups (fuelled; the fuel always
dominates the list length at every call site). -/
def moreGroups : Nat → List Char → List (List Char) × List Char
  | 0, cs => ([], cs)
  | fuel + 1, cs =>
    match cs with
    | '.' :: c :: rest =>
      if c.isDigit then
        let (d, r) := takeDigits (c :: rest)
        let (gs, r2) := moreGroups fuel r
        (d :: gs, r2)
      else ([], cs)
    | _ => ([], cs)

/-- Join digit groups with dots, as the regex match text. -/
def dotJoin (groups : List (List Char)) : String :=
  String.intercalate "." (groups.map (fun g => String.mk g))

/-- Scanner for `re.findall(r'\b(\d+\.\d+\.\d+(?:\.\d+)*)\b', answer)`:
at each position after a non-word character, greedily parse dot-separated
digit groups; a match needs at least three groups and a word boundary after
the last digit, with the regex backtracking one `\.\d+` group when the
trailing boundary fails. -/
def scanSections : Nat → Option Char → List Char → List String
  | 0, _, _ => []
  | _ + 1, _, [] => []
  | fuel + 1, prev, c :: cs =>
    if c.isDigit && !(prev.elim false isWordChar) then
      let (g1, r1) := takeDigits (c :: cs)
      let (gs, rest) := moreGroups r1.length r1
      let groups := g1 :: gs
      let boundaryOK := rest.head?.elim true (fun d => !isWordChar d)
      if groups.length ≥ 3 && boundaryOK then
        dotJoin groups ::
          scanSections fuel ((groups.getLast?.getD []).getLast?) rest
      else if groups.length ≥ 4 && !boundaryOK then
        -- backtrack: drop the final `\.\d+` group; the boundary is then the
        -- dot, and scanning resumes over the dropped group and the rest
        dotJoin groups.dropLast ::
          scanSections fuel (some '.') ((groups.getLast?.getD []) ++ rest)
      else
        scanSections fuel (some c) cs
    else
      scanSections fuel (some c) cs

/-- The section numbers found in the answer text by
`re.findall(r'\b(\d+\.\d+\.\d+(?:\.\d+)*)\b', answer)`. -/
def findSectionNumbers (answer : String) : List String :=
  scanSections (answer.data.length + 1) none answer.data

/-- `_extract_quick_search_terms(answer, original_question)`: up to two
section numbers from the answer, then one topic-mapped term, capped at 3. -/
def extract_quick_search_terms (answer original_question : String) :
    List String :=
  let search_terms := (findSectionNumbers answer).take 2
  let question_lower := lowerStr original_question
  let search_terms :=
    if strHasSub question_lower "fence" || strHasSub question_lower "wall" then
      search_terms ++ ["fence height zoning"]
    else if strHasSub question_lower "animal" then
      search_terms ++ ["animal control ordinance"]
    else if strHasSub question_lower "business" then
      search_terms ++ ["business license"]
    else if strHasSub question_lower "permit" then
      search_terms ++ ["permit requirements"]
    else search_terms
  search_terms.take 3

/-- The body of the fallback loop in `ask_question` step 2: append a fallback
document when its section is not among the initially-retrieved sections (the
seen set is not updated inside this loop), and break once 12 documents are
reached (checked only after an append). -/
def fallback_step (seen_sections : List (Option String))
    (acc : List Doc × Bool) (doc : Doc) : List Doc × Bool :=
  if acc.2 then acc
  else if doc.sectionId ∈ seen_sections then acc
  else
    let l := acc.1 ++ [doc]
    (l, decide (l.length ≥ 12))

/-- Steps 1–2 of `ask_question`: the initial `smart_search_code(question, 12)`
plus, when it found fewer than 5 documents and self-query is available, the
fallback loop over `self.retriever.invoke(question)[:8]`. -/
def retrieve_docs (env : Env) (st : MunicipalCodeAssistant)
    (question : String) : List Doc :=
  let retrieved := smart_search_code env question 12
  if retrieved.length < 5 && st.use_self_query then
    match env.self_query_invoke question with
    | none => retrieved
    | some fallback_docs =>
      ((fallback_docs.take 8).foldl
        (fallback_step (retrieved.map Doc.sectionId)) (retrieved, false)).1
  else retrieved

/-- The body of step 5's dedup loop: keep an extra document whose section
identifier has not been seen, updating the seen set as it goes. -/
def refine_step (acc : List Doc × List (Option String)) (doc : Doc) :
    List Doc × List (Option String) :=
  if doc.sectionId ∈ acc.2 then acc
  else (acc.1 ++ [doc], acc.2 ++ [doc.sectionId])

/-- Step 5's dedup loop: the extra documents whose section identifier is not
among the retrieved ones. -/
def refine_new_docs (retrieved extra_docs : List Doc) : List Doc :=
  (extra_docs.foldl refine_step ([], retrieved.map Doc.sectionId)).1

/-- `ask_question(question)`, instrumented: returns the raised-or-returned
result, the (unchanged — the method never writes `self`) assistant state, and
the number of `batch_search` retrieval rounds performed (the initial
`smart_search_code` round plus the optional refinement round). -/
def ask_question_run (env : Env) (st : MunicipalCodeAssistant)
    (question : String) :
    Except String AskResult × MunicipalCodeAssistant × Nat :=
  if st.vectorstore.isNone then
    (.error "Assistant not initialized. Call initialize() first.", st, 0)
  else
    let retrieved_docs := retrieve_docs env st question
    if retrieved_docs.isEmpty then
      (.ok { success := false, error := some "No relevant documents found",
             documents := [], answer := none, iterations := 0 }, st, 1)
    else
      match env.summarize question (format_retrieved_docs retrieved_docs) with
      | .error e =>
        (.ok { success := false, documents := retrieved_docs, answer := none,
               error := some ("Error generating response: " ++ e),
               iterations := 1 }, st, 1)
      | .ok answer =>
        if !quick_needs_check answer then
          (.ok { success := true, documents := retrieved_docs,
                 answer := some answer, error := none, iterations := 1 },
           st, 1)
        else
          let additional_terms := extract_quick_search_terms answer question
          if additional_terms.isEmpty then
            (.ok { success := true, documents := retrieved_docs,
                   answer := some answer, error := none, iterations := 1,
                   note := some "Comprehensive search completed" }, st, 1)
          else
            let extra_docs := batch_search env (additional_terms.take 3) 2
            let new_docs := refine_new_docs retrieved_docs extra_docs
            if new_docs.isEmpty then
              (.ok { success := true, documents := retrieved_docs,
                     answer := some answer, error := none, iterations := 1,
                     note := some "Comprehensive search completed" }, st, 2)
            else
              let all_docs := retrieved_docs ++ new_docs
              match env.summarize question (format_retrieved_docs all_docs)
                with
              | .error e =>
                (.ok { success := false, documents := retrieved_docs,
                       answer := none,
                       error := some ("Error generating response: " ++ e),
                       iterations := 1 }, st, 2)
              | .ok final_answer =>
                (.ok { success := true, documents := all_docs,
                       answer := some final_answer, error := none,
                       iterations := 2 }, st, 2)

/-- `ask_question`'s visible outcome (raised exception or result dict). -/
def ask_question (env : Env) (st : MunicipalCodeAssistant)
    (question : String) : Except String AskResult :=
  (ask_question_run env st question).1

/-- The `iterations` field of a non-raising outcome (0 for an exception). -/
def iterations_of : Except String AskResult → Nat
  | .ok r => r.iterations
  | .error _ => 0

/-- The sections the TUI loop (`TUIInterface.run`) renders for one turn's
result: nothing when `result['success']` is falsy (the loop `continue`s after
a warning), otherwise every document of `result['documents']`. -/
def tui_displayed_docs (result : AskResult) : List Doc :=
  if !result.success then [] else result.documents

instance {ε α : Type _} [DecidableEq ε] [DecidableEq α] :
    DecidableEq (Except ε α) := fun a b =>
  match a, b with
  | .ok x, .ok y =>
    if h : x = y then isTrue (by rw [h]) else isFalse (by simp [h])
  | .error x, .error y =>
    if h : x = y then isTrue (by rw [h]) else isFalse (by simp [h])
  | .ok _, .error _ => isFalse (by simp)
  | .error _, .ok _ => isFalse (by simp)

/-! ### Concrete test fixtures

Small oracles used to instantiate the theorems below at concrete inputs.
`tinyHash` stands in for Python's (per-process deterministic) string hash. -/

/-- A one-chunk document of section `1.1.1`. -/
def docA : Doc := ⟨"aa", some "1.1.1"⟩

/-- A second, distinct chunk carrying the same section `1.1.1`. -/
def docB : Doc := ⟨"bbb", some "1.1.1"⟩

/-- A document of section `2.2.2`. -/
def docC : Doc := ⟨"cc", some "2.2.2"⟩

/-- A stand-in for Python's string hash: collision-free on the fixtures. -/
def tinyHash (s : String) : Int := (s.data.length : Int)

/-- An initialized assistant (`initialize()` succeeded; the self-query
retriever could not be built). -/
def stReady : MunicipalCodeAssistant :=
  { db_path := "chroma_db", vectorstore := some (), use_self_query := false }

/-- A vector store that returns the two same-section chunks `docA`, `docB`
for every query; the summary chain answers `"Yes."`. -/
def env1 : Env :=
  { similarity_search := fun _ _ => some [docA, docB],
    self_query_invoke := fun _ => none,
    summarize := fun _ _ => .ok "Yes.",
    hashf := tinyHash }

/-- A vector store that returns `docA` for every query; the summary chain
raises an exception `"boom"`. -/
def env3 : Env :=
  { similarity_search := fun _ _ => some [docA],
    self_query_invoke := fun _ => none,
    summarize := fun _ _ => .error "boom",
    hashf := tinyHash }

/-- A vector store that finds nothing for any query. -/
def env5 : Env :=
  { similarity_search := fun _ _ => some [],
    self_query_invoke := fun _ => some [],
    summarize := fun _ _ => .ok "Yes.",
    hashf := tinyHash }

/-- The same retrieval oracle as `env1` but a different summarization model:
used to check retrieval determinism. -/
def env9 : Env :=
  { env1 with summarize := fun _ _ => .error "different model" }

/-- A vector store that returns `docA` for every query; the summary chain
always answers with the refinement marker phrase. -/
def env7 : Env :=
  { similarity_search := fun _ _ => some [docA],
    self_query_invoke := fun _ => none,
    summarize := fun _ _ => .ok "We need additional sections.",
    hashf := tinyHash }

/-! ### Helper lemmas: the three dedup loops -/

/-- Invariant of `batch_search`'s inner dedup loop: the collected documents
have pairwise-distinct content keys, all recorded in the seen set. -/
theorem batch_dedup_foldl_inv (env : Env) (docs : List Doc) :
    ∀ (acc : List Doc × List Int),
      (acc.1.map (contentKey env)).Nodup →
      (∀ x ∈ acc.1.map (contentKey env), x ∈ acc.2) →
      ((docs.foldl (batch_dedup_step env) acc).1.map (contentKey env)).Nodup ∧
        ∀ x ∈ ((docs.foldl (batch_dedup_step env) acc).1.map (contentKey env)),
          x ∈ (docs.foldl (batch_dedup_step env) acc).2 := by
  induction docs with
  | nil => exact fun acc h1 h2 => ⟨h1, h2⟩
  | cons d ds ih =>
    intro acc h1 h2
    simp only [List.foldl_cons]
    by_cases hmem : contentKey env d ∈ acc.2
    · have hstep : batch_dedup_step env acc d = acc := by
        unfold batch_dedup_step
        simp [hmem]
      rw [hstep]
      exact ih acc h1 h2
    · have hstep : batch_dedup_step env acc d =
          (acc.1 ++ [d], acc.2 ++ [contentKey env d]) := by
        unfold batch_dedup_step
        simp [hmem]
      rw [hstep]
      apply ih
      · simp only [List.map_append, List.map_cons, List.map_nil,
          List.nodup_append]
        refine ⟨h1, List.nodup_singleton _, ?_⟩
        intro x hx
        simp only [List.mem_singleton]
        intro hxd
        exact hmem (hxd ▸ h2 x hx)
      · intro x hx
        simp only [List.map_append, List.map_cons, List.map_nil,
          List.mem_append, List.mem_singleton] at hx
        rcases hx with hx | hx
        · exact List.mem_append_left _ (h2 x hx)
        · exact List.mem_append_right _ (by simp [hx])

/-- Invariant of `batch_search`'s outer loop. -/
theorem batch_query_foldl_inv (env : Env) (kq : Nat) (queries : List String) :
    ∀ (acc : List Doc × List Int),
      (acc.1.map (contentKey env)).Nodup →
      (∀ x ∈ acc.1.map (contentKey env), x ∈ acc.2) →
      ((queries.foldl (batch_query_step env kq) acc).1.map
        (contentKey env)).Nodup ∧
        ∀ x ∈ ((queries.foldl (batch_query_step env kq) acc).1.map
          (contentKey env)),
          x ∈ (queries.foldl (batch_query_step env kq) acc).2 := by
  induction queries with
  | nil => exact fun acc h1 h2 => ⟨h1, h2⟩
  | cons q qs ih =>
    intro acc h1 h2
    simp only [List.foldl_cons]
    unfold batch_query_step
    cases env.similarity_search q kq with
    | none => exact ih acc h1 h2
    | some docs =>
      have h := batch_dedup_foldl_inv env docs acc h1 h2
      exact ih _ h.1 h.2

/-- The documents returned by one `batch_search` call have pairwise-distinct
content keys (`hash(page_content[:100])`). -/
theorem batch_search_keys_nodup (env : Env) (queries : List String)
    (kq : Nat) :
    ((batch_search env queries kq).map (contentKey env)).Nodup := by
  unfold batch_search
  exact (batch_query_foldl_inv env kq queries ([], [])
    (by simp) (by simp)).1

/-- `_format_retrieved_docs` collects at most one entry per section. -/
theorem format_foldl_nodup (docs : List Doc) :
    ∀ (acc : List (String × String)),
      (acc.map Prod.fst).Nodup →
      ((docs.foldl format_step acc).map Prod.fst).Nodup := by
  induction docs with
  | nil => exact fun acc h => h
  | cons d ds ih =>
    intro acc h
    simp only [List.foldl_cons]
    by_cases hmem : d.sectionId.getD "Unknown" ∈ acc.map Prod.fst
    · have hstep : format_step acc d = acc := by
        unfold format_step
        simp [hmem]
      rw [hstep]
      exact ih acc h
    · have hstep : format_step acc d =
          acc ++ [(d.sectionId.getD "Unknown",
            truncate_content d.page_content)] := by
        unfold format_step
        simp [hmem]
      rw [hstep]
      apply ih
      simp only [List.map_append, List.map_cons, List.map_nil,
        List.nodup_append]
      refine ⟨h, List.nodup_singleton _, ?_⟩
      intro x hx
      simp only [List.mem_singleton]
      intro hxd
      exact hmem (hxd ▸ hx)

/-- The section labels of `format_entries` are pairwise distinct. -/
theorem format_entries_sections_nodup (docs : List Doc) :
    ((format_entries docs).map Prod.fst).Nodup := by
  unfold format_entries
  exact format_foldl_nodup _ [] (by simp)

/-- Invariant of step 5's dedup loop: collected documents avoid the initial
seen set and have pairwise-distinct sections. -/
theorem refine_foldl_inv (seen0 : List (Option String))
    (extra : List Doc) :
    ∀ (acc : List Doc × List (Option String)),
      (∀ s ∈ seen0, s ∈ acc.2) →
      (∀ d ∈ acc.1, ¬ d.sectionId ∈ seen0) →
      (acc.1.map Doc.sectionId).Nodup →
      (∀ s ∈ acc.1.map Doc.sectionId, s ∈ acc.2) →
      (∀ d ∈ (extra.foldl refine_step acc).1, ¬ d.sectionId ∈ seen0) ∧
        ((extra.foldl refine_step acc).1.map Doc.sectionId).Nodup := by
  induction extra with
  | nil => exact fun acc _ h1 h2 _ => ⟨h1, h2⟩
  | cons d ds ih =>
    intro acc h0 h1 h2 h3
    simp only [List.foldl_cons]
    by_cases hmem : d.sectionId ∈ acc.2
    · have hstep : refine_step acc d = acc := by
        unfold refine_step
        simp [hmem]
      rw [hstep]
      exact ih acc h0 h1 h2 h3
    · have hstep : refine_step acc d =
          (acc.1 ++ [d], acc.2 ++ [d.sectionId]) := by
        unfold refine_step
        simp [hmem]
      rw [hstep]
      apply ih
      · intro s hs
        exact List.mem_append_left _ (h0 s hs)
      · intro d' hd'
        simp only [List.mem_append, List.mem_singleton] at hd'
        rcases hd' with hd' | hd'
        · exact h1 d' hd'
        · subst hd'
          intro hsec
          exact hmem (h0 _ hsec)
      · simp only [List.map_append, List.map_cons, List.map_nil,
          List.nodup_append]
        refine ⟨h2, List.nodup_singleton _, ?_⟩
        intro x hx
        simp only [List.mem_singleton]
        intro hxd
        exact hmem (hxd ▸ h3 x hx)
      · intro s hs
        simp only [List.map_append, List.map_cons, List.map_nil,
          List.mem_append, List.mem_singleton] at hs
        rcases hs with hs | hs
        · exact List.mem_append_left _ (h3 s hs)
        · exact List.mem_append_right _ (by simp [hs])

/-- The refinement round only keeps documents whose section identifier does
not occur among the retrieved documents, and those sections are pairwise
distinct. -/
theorem refine_new_docs_spec (retrieved extra : List Doc) :
    (∀ d ∈ refine_new_docs retrieved extra,
      ¬ d.sectionId ∈ retrieved.map Doc.sectionId) ∧
      ((refine_new_docs retrieved extra).map Doc.sectionId).Nodup := by
  unfold refine_new_docs
  exact refine_foldl_inv (retrieved.map Doc.sectionId) extra
    ([], retrieved.map Doc.sectionId)
    (fun _ hs => hs) (by simp) (by simp) (by simp)

/-- The documents returned by `smart_search_code` have pairwise-distinct
content keys: the stable sort permutes the batch-search pool and the
truncation takes a sublist. -/
theorem smart_search_code_keys_nodup (env : Env) (q : String) (k : Nat) :
    ((smart_search_code env q k).map (contentKey env)).Nodup := by
  have hperm : ((ranked_docs q (smart_search_pool env q k)).map Prod.snd).Perm
      (smart_search_pool env q k) := by
    have h := (List.perm_insertionSort
      (rankRel (relevance_score (wordSet (lowerStr q))))
      (smart_search_pool env q k).enum).map Prod.snd
    simpa [ranked_docs, List.enum_map_snd] using h
  have hpool : ((smart_search_pool env q k).map (contentKey env)).Nodup :=
    batch_search_keys_nodup env (search_queries q)
      (max 2 (k / (search_queries q).length))
  have hmapped : (((ranked_docs q (smart_search_pool env q k)).map
      Prod.snd).map (contentKey env)).Nodup :=
    (hperm.map (contentKey env)).nodup_iff.mpr hpool
  show (((((ranked_docs q (smart_search_pool env q k)).map Prod.snd)).take
    k).map (contentKey env)).Nodup
  rw [List.map_take]
  exact hmapped.sublist (List.take_sublist _ _)

/-- C1 (counterexample): with a vector store returning two distinct chunks of
the same section `1.1.1`, `ask_question` succeeds and its `documents` field
contains two entries with equal section identifiers — the final list is not
deduplicated by section. -/
theorem claim_C1_counterexample :
    ask_question env1 stReady "hello" =
      .ok { success := true, error := none, documents := [docA, docB],
            answer := some "Yes.", iterations := 1 } ∧
    docA.sectionId = docB.sectionId ∧ docA ≠ docB := by
  refine ⟨by decide, by decide, by decide⟩

/-- C1 (amended): the final document list is deduplicated by content key, not
by section: the documents produced by the initial `smart_search_code` round
have pairwise-distinct `hash(page_content[:100])` keys, and every document
added by the refinement round has a section identifier that occurs neither
among the retrieved documents nor among the other added documents. -/
theorem claim_C1_amended (env : Env) (q : String) (k : Nat)
    (retrieved extra : List Doc) :
    ((smart_search_code env q k).map (contentKey env)).Nodup ∧
    (∀ d ∈ refine_new_docs retrieved extra,
      ¬ d.sectionId ∈ retrieved.map Doc.sectionId) ∧
    ((refine_new_docs retrieved extra).map Doc.sectionId).Nodup :=
  ⟨smart_search_code_keys_nodup env q k,
   (refine_new_docs_spec retrieved extra).1,
   (refine_new_docs_spec retrieved extra).2⟩

/-- C1 (amended) at a concrete input: the refinement round's dedup really
rejects an already-present section. -/
theorem claim_C1_amended_witness :
    ¬ docC.sectionId ∈ [docA].map Doc.sectionId :=
  (claim_C1_amended env1 "hello" 12 [docA] [docC]).2.1 docC (by decide)

/-- C2: the context handed to the summarization step labels at most one entry
per section identifier, and the refinement round appends only documents whose
section identifier is absent from the retrieved set. -/
theorem claim_C2 (docs retrieved extra : List Doc) :
    ((format_entries docs).map Prod.fst).Nodup ∧
    ∀ d ∈ refine_new_docs retrieved extra,
      ¬ d.sectionId ∈ retrieved.map Doc.sectionId :=
  ⟨format_entries_sections_nodup docs,
   (refine_new_docs_spec retrieved extra).1⟩

/-- C2 at a concrete input. -/
theorem claim_C2_witness :
    ¬ docC.sectionId ∈ [docB].map Doc.sectionId :=
  (claim_C2 [] [docB] [docC]).2 docC (by decide)

/-- C3 (code divergence): when retrieval finds `docA` but the summary chain
raises `"boom"`, `ask_question` returns `success = False` together with the
retrieved documents — not the `success = True` the specification states. -/
theorem claim_C3_code_divergence :
    ask_question env3 stReady "hello" =
      .ok { success := false,
            error := some "Error generating response: boom",
            documents := [docA], answer := none, iterations := 1 } := by
  decide

/-- C4 (code divergence): on that same synthesis failure the TUI loop hides
the retrieved sections (it `continue`s on a falsy `success` flag), even
though the result carries a non-empty `documents` list. -/
theorem claim_C4_code_divergence :
    (ask_question env3 stReady "hello").toOption.elim [] tui_displayed_docs
      = [] ∧
    (ask_question env3 stReady "hello").toOption.elim [] AskResult.documents
      = [docA] := by
  refine ⟨by decide, by decide⟩

/-- C5: when retrieval (including the structured fallback) yields no
documents, `ask_question` reports failure with a non-null error, an empty
document list, a null answer, and zero iterations. -/
theorem claim_C5 (env : Env) (st : MunicipalCodeAssistant) (q : String)
    (hvs : st.vectorstore.isNone = false)
    (hret : retrieve_docs env st q = []) :
    ask_question env st q =
      .ok { success := false, error := some "No relevant documents found",
            documents := [], answer := none, iterations := 0 } := by
  unfold ask_question ask_question_run
  rw [hvs]
  simp [hret]

/-- C5 at a concrete input: an empty vector store. -/
theorem claim_C5_witness :
    ask_question env5 stReady "anything" =
      .ok { success := false, error := some "No relevant documents found",
            documents := [], answer := none, iterations := 0 } :=
  claim_C5 env5 stReady "anything" (by decide) (by decide)

/-- The uncapped variant list always starts with the original question. -/
theorem search_queries_raw_head (q : String) :
    ∃ t, search_queries_raw q = q :: t := by
  simp only [search_queries_raw]
  split_ifs <;> exact ⟨_, rfl⟩

/-- C6: `smart_search_code` submits at most 6 search variants, the original
query is always among them (in first position), and the submitted list is
exactly `search_queries q`. -/
theorem claim_C6 (env : Env) (q : String) (k : Nat) :
    (search_queries q).length ≤ 6 ∧ q ∈ search_queries q ∧
    smart_search_code env q k =
      ((ranked_docs q (batch_search env (search_queries q)
          (max 2 (k / (search_queries q).length)))).map Prod.snd).take k := by
  refine ⟨?_, ?_, rfl⟩
  · show ((search_queries_raw q).take 6).length ≤ 6
    rw [List.length_take]
    exact min_le_left _ _
  · obtain ⟨t, ht⟩ := search_queries_raw_head q
    show q ∈ (search_queries_raw q).take 6
    rw [ht]
    exact List.mem_cons_self _ _

/-- C7 (counterexample): an answer containing the marker phrase
`"need additional sections"` need not trigger an extra retrieval round: when
the quick term extraction finds no section numbers and no topic keyword, the
turn ends after the single initial round (round counter 1, `iterations` 1). -/
theorem claim_C7_counterexample :
    quick_needs_check "We need additional sections." = true ∧
    extract_quick_search_terms "We need additional sections." "hello" = [] ∧
    ask_question_run env7 stReady "hello" =
      (.ok { success := true, documents := [docA],
             answer := some "We need additional sections.", error := none,
             iterations := 1, note := some "Comprehensive search completed" },
       stReady, 1) := by
  refine ⟨by decide, by decide, by decide⟩

/-- C7 (amended): `ask_question` performs at most one additional retrieval
round (at most 2 `batch_search` rounds in total) and its `iterations` field
never exceeds 2 — there is no recursive retry. -/
theorem claim_C7_amended (env : Env) (st : MunicipalCodeAssistant)
    (q : String) :
    (ask_question_run env st q).2.2 ≤ 2 ∧
    iterations_of (ask_question env st q) ≤ 2 := by
  show (ask_question_run env st q).2.2 ≤ 2 ∧
    iterations_of (ask_question_run env st q).1 ≤ 2
  unfold ask_question_run
  dsimp only
  repeat' split
  all_goals simp [iterations_of]

/-- C8: `smart_search_code` stably sorts the batch-search pool by descending
relevance score (ties keep the original retrieval order, witnessed by the
`enum` indices) and truncates to at most `k` documents. -/
theorem claim_C8 (env : Env) (q : String) (k : Nat) :
    (smart_search_code env q k).length ≤ k ∧
    smart_search_code env q k =
      ((ranked_docs q (smart_search_pool env q k)).map Prod.snd).take k ∧
    (ranked_docs q (smart_search_pool env q k)).Perm
      (smart_search_pool env q k).enum ∧
    (ranked_docs q (smart_search_pool env q k)).Pairwise
      (rankRel (relevance_score (wordSet (lowerStr q)))) ∧
    (smart_search_code env q k).Pairwise
      (fun a b => relevance_score (wordSet (lowerStr q)) b ≤
        relevance_score (wordSet (lowerStr q)) a) := by
  refine ⟨?_, rfl, List.perm_insertionSort _ _,
    List.sorted_insertionSort _ _, ?_⟩
  · show ((((ranked_docs q (smart_search_pool env q k)).map Prod.snd)).take
      k).length ≤ k
    rw [List.length_take]
    exact min_le_left _ _
  · have h := List.sorted_insertionSort
      (rankRel (relevance_score (wordSet (lowerStr q))))
      (smart_search_pool env q k).enum
    have h2 : ((ranked_docs q (smart_search_pool env q k)).map
        Prod.snd).Pairwise
        (fun a b => relevance_score (wordSet (lowerStr q)) b ≤
          relevance_score (wordSet (lowerStr q)) a) := by
      refine List.Pairwise.map _ ?_ h
      intro a b hab
      rcases hab with h' | ⟨h', _⟩
      · exact le_of_lt h'
      · exact le_of_eq h'.symm
    exact h2.sublist (List.take_sublist _ _)

/-- C9: the ranked list produced by `smart_search_code` is a deterministic
function of the query, the vector-store oracle, and the content hash alone —
two environments agreeing on those (whatever their summarization model does)
yield identical output, in membership and order. -/
theorem claim_C9 (e1 e2 : Env) (q : String) (k : Nat)
    (hs : e1.similarity_search = e2.similarity_search)
    (hh : e1.hashf = e2.hashf) :
    smart_search_code e1 q k = smart_search_code e2 q k := by
  have hb : ∀ qs kq, batch_search e1 qs kq = batch_search e2 qs kq := by
    intro qs kq
    unfold batch_search batch_query_step batch_dedup_step contentKey
    simp only [hs, hh]
  unfold smart_search_code smart_search_pool
  rw [hb]

/-- C9 at concrete inputs: two environments differing only in their
summarization model retrieve identically. -/
theorem claim_C9_witness :
    smart_search_code env1 "hello" 10 = smart_search_code env9 "hello" 10 :=
  claim_C9 env1 env9 "hello" 10 rfl rfl

/-- C10: with the vector store unset, `ask_question` raises the RuntimeError
immediately: no retrieval round runs and the assistant state is unchanged. -/
theorem claim_C10 (env : Env) (st : MunicipalCodeAssistant) (q : String)
    (h : st.vectorstore = none) :
    ask_question_run env st q =
      (.error "Assistant not initialized. Call initialize() first.",
       st, 0) := by
  unfold ask_question_run
  rw [h]
  simp

/-- C10 at a concrete input: the freshly-constructed assistant. -/
theorem claim_C10_witness :
    ask_question_run env1 (MunicipalCodeAssistant.mkInit "chroma_db")
      "fence" =
      (.error "Assistant not initialized. Call initialize() first.",
       MunicipalCodeAssistant.mkInit "chroma_db", 0) :=
  claim_C10 env1 (MunicipalCodeAssistant.mkInit "chroma_db") "fence" rfl

end ElPasoAI
